import Mathlib

/-!
Shallow embedding of the voice-dataset collector (`src/main.py`): the
validated-ingest-and-export pipeline.  Strings are modelled as `List Char`,
bytes as `Nat` (each `< 256`), and the MongoDB collection `entries` as a
`List Entry` in insertion order.  The `upload`, `download_csv`,
`download_audio`, `download_all` and `stats` definitions below are direct
translations of the corresponding route handlers.
-/

namespace VoiceDataset

/-- Characters stripped by Python's `str.strip()` (modelled for the ASCII
whitespace characters; the source only ever receives form text). -/
def isPySpace (c : Char) : Bool :=
  c == ' ' || c == '\t' || c == '\n' || c == '\r' || c == '\x0b' || c == '\x0c'

/-- Python `str.strip()`: remove leading and trailing whitespace. -/
def pyStrip (l : List Char) : List Char :=
  (((l.dropWhile isPySpace).reverse).dropWhile isPySpace).reverse

/-- Python `str.upper()` (ASCII case mapping, as used by the source's
ASCII field values). -/
def pyUpper (l : List Char) : List Char := l.map Char.toUpper

/-- Python `str.lower()` (ASCII case mapping). -/
def pyLower (l : List Char) : List Char := l.map Char.toLower

/-- The character list of a string literal. -/
def chars (s : String) : List Char := s.data

/-- Constant MAX_AUDIO_SIZE_MB = 10 from the source. -/
def MAX_AUDIO_SIZE_MB : Nat := 10

/-- Set VALID_LANGUAGES from the source (a Python set, modelled as a list;
only membership is ever used). -/
def VALID_LANGUAGES : List (List Char) := [ chars "bengali", chars "english", chars "mixed"]

/-- Set VALID_NOISE from the source. -/
def VALID_NOISE : List (List Char) := [ chars "noisy", chars "quiet"]

/-- Set VALID_INTENTS from the source; note it contains the empty string. -/
def VALID_INTENTS : List (List Char) :=
  [ chars "pick_and_place", chars "pick_object", chars "place_object",
    chars "move_robot", chars "query_weather", chars "query_cricket",
    chars "arm_home", chars "stop", chars "greet", chars ""]

/-- Set VALID_COLORS from the source; contains the empty string. -/
def VALID_COLORS : List (List Char) :=
  [ chars "red", chars "green", chars "blue", chars "yellow", chars "orange",
    chars "white", chars "black", chars "purple", chars "pink", chars ""]

/-- Set VALID_DIRECTIONS from the source; contains the empty string. -/
def VALID_DIRECTIONS : List (List Char) :=
  [ chars "forward", chars "backward", chars "left", chars "right", chars ""]

/-- Value of a character in the standard base64 alphabet
(`A-Z a-z 0-9 + /`), `none` for every other character; this is CPython's
`table_a2b_base64`. -/
def b64CharVal (c : Char) : Option Nat :=
  if 'A' ≤ c ∧ c ≤ 'Z' then some (c.toNat - 65)
  else if 'a' ≤ c ∧ c ≤ 'z' then some (c.toNat - 71)
  else if '0' ≤ c ∧ c ≤ '9' then some (c.toNat + 4)
  else if c = '+' then some 62
  else if c = '/' then some 63
  else none

/-- Main loop of CPython's `binascii.a2b_base64` with `strict_mode=False`
(what `base64.b64decode` calls for the source's `validate=False` default):
characters outside the alphabet are skipped, `=` padding terminates the
input once it completes a quad of at least two data characters, and the
input is rejected only when it ends inside an unfinished quad.
Arguments: remaining input, quad position, pending high bits, pads seen,
accumulated output bytes (reversed). -/
def a2bLoop : List Char → Nat → Nat → Nat → List Nat → Option (List Nat)
  | [], quadPos, _, _, acc => if quadPos = 0 then some acc.reverse else none
  | c :: rest, quadPos, leftchar, pads, acc =>
    if c = '=' then
      if 2 ≤ quadPos then
        if 4 ≤ quadPos + pads + 1 then some acc.reverse
        else a2bLoop rest quadPos leftchar (pads + 1) acc
      else a2bLoop rest quadPos leftchar pads acc
    else
      match b64CharVal c with
      | none => a2bLoop rest quadPos leftchar pads acc
      | some v =>
        match quadPos with
        | 0 => a2bLoop rest 1 v 0 acc
        | 1 => a2bLoop rest 2 (v % 16) 0 ((leftchar * 4 + v / 16) :: acc)
        | 2 => a2bLoop rest 3 (v % 4) 0 ((leftchar * 16 + v / 4) :: acc)
        | _ => a2bLoop rest 0 0 0 ((leftchar * 64 + v) :: acc)

/-- Python `base64.b64decode` on a `str` argument: the string must be pure
ASCII (otherwise `str.encode('ascii')` raises), then the lenient
`a2b_base64` runs.  `none` models a raised exception. -/
def pyB64Decode (l : List Char) : Option (List Nat) :=
  if l.all (fun c => c.toNat ≤ 127) then a2bLoop l 0 0 0 [] else none

/-- Python `audio_data.split(",", 1)` combined with the preceding
`"," not in audio_data` check: `none` when the string has no comma,
otherwise the part before the first comma and everything after it. -/
def splitFirstComma : List Char → Option (List Char × List Char)
  | [] => none
  | c :: rest =>
    if c = ',' then some ([], rest)
    else
      match splitFirstComma rest with
      | none => none
      | some (h, t) => some (c :: h, t)

/-- Part of the string before the first comma. -/
def headerPart (l : List Char) : List Char := l.takeWhile (fun c => !(c == ','))

/-- Part of the string after the first comma. -/
def payloadPart (l : List Char) : List Char := ((l.dropWhile (fun c => !(c == ','))).drop 1)

/-- The required `data:audio/` marker checked by
`header.startswith("data:audio/")`. -/
def dataAudioMarker : List Char := chars "data:audio/"

/-- Boolean prefix test, modelling `str.startswith`. -/
def startsWithList : List Char → List Char → Bool
  | [], _ => true
  | _ :: _, [] => false
  | p :: ps, c :: cs => p == c && startsWithList ps cs

/-- The four audio-decode failure classes named by the spec's AudioCodec. -/
inductive AudioError where
  | malformedAudioFormat
  | notAudioContent
  | base64DecodeError
  | audioTooLarge
deriving DecidableEq

/-- Result of audio decoding: the original base64 text together with the
decoded bytes, or a failure class. -/
inductive AudioResult where
  | ok (enc : List Char) (bs : List Nat)
  | error (e : AudioError)
deriving DecidableEq

/-- Lines 111-122 of `src/main.py` (the spec's AudioCodec): comma check,
`data:audio/` marker check, base64 decode, 10 MiB size check.  On success
both the raw base64 text and the decoded bytes are returned, since the
entry persists the base64 text directly. -/
def decodeAudio (audio_data : List Char) : AudioResult :=
  match splitFirstComma audio_data with
  | none => .error .malformedAudioFormat
  | some (hdr, enc) =>
    if startsWithList dataAudioMarker hdr then
      match pyB64Decode enc with
      | none => .error .base64DecodeError
      | some bs =>
        if bs.length > MAX_AUDIO_SIZE_MB * 1024 * 1024 then .error .audioTooLarge
        else .ok enc bs
    else .error .notAudioContent

/-- HTTP error as raised by `HTTPException(status, message)`. -/
structure HttpError where
  status : Nat
  message : String
deriving DecidableEq

/-- Outcome of a request handler: a payload or an `HTTPException`. -/
inductive HttpResult (α : Type) where
  | ok (val : α)
  | error (e : HttpError)
deriving DecidableEq

/-- One document of the `entries` collection (the dict built at lines
128-140 of `src/main.py`).  `audio_b64` is optional because the export
code tolerates documents missing that key (`if "audio_b64" in e`). -/
structure Entry where
  filename : List Char
  speaker_id : List Char
  text : List Char
  language : List Char
  environment : List Char
  intent : List Char
  object_color : List Char
  target_color : List Char
  direction : List Char
  timestamp : List Char
  audio_b64 : Option (List Char)
deriving DecidableEq

/-- The MongoDB collection, in insertion order. -/
abbrev Store := List Entry

/-- The raw form fields of a `POST /upload/` request. -/
structure UploadInput where
  audio_data : List Char
  text : List Char
  language : List Char
  environment : List Char
  speaker_id : List Char
  intent : List Char
  object_color : List Char
  target_color : List Char
  direction : List Char
deriving DecidableEq

/-- The `upload` handler (lines 73-152 of `src/main.py`).  `filename` and
`timestamp` stand for the generated `uuid4().webm` name and
`datetime.utcnow()`; `insertOk` models whether `collection.insert_one`
succeeds (a failed single-document insert leaves the collection unchanged,
per MongoDB's per-document atomicity, which the spec's document-store
backend delegates to the store).  Returns the collection after the request
together with the response: the saved filename, or the raised
`HTTPException`. -/
def upload (inp : UploadInput) (filename timestamp : List Char) (insertOk : Bool)
    (store : Store) : Store × HttpResult (List Char) :=
  if pyStrip inp.text = [] ∨ (pyStrip inp.text).length > 1000 then
    (store, .error ⟨400, "Text must be 1–1000 characters."⟩)
  else if pyUpper (pyStrip inp.speaker_id) = [] then
    (store, .error ⟨400, "Speaker ID is required."⟩)
  else if (pyUpper (pyStrip inp.speaker_id)).length > 20 then
    (store, .error ⟨400, "Speaker ID too long (max 20 chars)."⟩)
  else if ¬ pyLower inp.language ∈ VALID_LANGUAGES then
    (store, .error ⟨400, "Language must be one of: VALID_LANGUAGES"⟩)
  else if ¬ pyLower inp.environment ∈ VALID_NOISE then
    (store, .error ⟨400, "Environment must be one of: VALID_NOISE"⟩)
  else if ¬ pyLower inp.intent ∈ VALID_INTENTS then
    (store, .error ⟨400, "Intent must be one of: VALID_INTENTS"⟩)
  else if ¬ pyLower inp.object_color ∈ VALID_COLORS then
    (store, .error ⟨400, "Object color must be one of: VALID_COLORS"⟩)
  else if ¬ pyLower inp.target_color ∈ VALID_COLORS then
    (store, .error ⟨400, "Target color must be one of: VALID_COLORS"⟩)
  else if ¬ pyLower inp.direction ∈ VALID_DIRECTIONS then
    (store, .error ⟨400, "Direction must be one of: VALID_DIRECTIONS"⟩)
  else
    match decodeAudio inp.audio_data with
    | .error .malformedAudioFormat => (store, .error ⟨400, "Invalid audio format."⟩)
    | .error .notAudioContent => (store, .error ⟨400, "Uploaded data is not audio."⟩)
    | .error .base64DecodeError => (store, .error ⟨400, "Failed to decode audio data."⟩)
    | .error .audioTooLarge => (store, .error ⟨400, "Audio exceeds 10MB limit."⟩)
    | .ok enc _ =>
      if insertOk then
        (store ++ [⟨filename, pyUpper (pyStrip inp.speaker_id), pyStrip inp.text,
          pyLower inp.language, pyLower inp.environment, pyLower inp.intent,
          pyLower inp.object_color, pyLower inp.target_color, pyLower inp.direction,
          timestamp, some enc⟩], .ok filename)
      else (store, .error ⟨500, "Failed to save to database."⟩)

/-- The entry that a successful upload appends (the dict of lines 128-140,
with the stored base64 text written as the payload after the first comma
of `audio_data`). -/
def uploadEntry (inp : UploadInput) (filename timestamp : List Char) : Entry :=
  ⟨filename, pyUpper (pyStrip inp.speaker_id), pyStrip inp.text,
    pyLower inp.language, pyLower inp.environment, pyLower inp.intent,
    pyLower inp.object_color, pyLower inp.target_color, pyLower inp.direction,
    timestamp, some (payloadPart inp.audio_data)⟩

/-- Lookup collection.find_one on the filename field: the first stored
entry carrying the given filename. -/
def getByFilename (store : Store) (fn : List Char) : Option Entry :=
  store.find? (fun e => e.filename == fn)

/-- The `download_audio` handler (lines 191-201): look up by filename,
re-decode the stored base64 text.  A document missing `audio_b64` or
holding undecodable text makes the handler raise an uncaught exception,
which the framework surfaces as a 500. -/
def download_audio (store : Store) (fn : List Char) : HttpResult (List Nat) :=
  match getByFilename store fn with
  | none => .error ⟨404, "Audio not found."⟩
  | some e =>
    match e.audio_b64 with
    | none => .error ⟨500, "Internal Server Error"⟩
    | some enc =>
      match pyB64Decode enc with
      | none => .error ⟨500, "Internal Server Error"⟩
      | some bs => .ok bs

/-- Metadata of an entry with the audio payload projected away, as fetched
by collection.find with the audio field projected out. -/
structure EntryMeta where
  filename : List Char
  speaker_id : List Char
  text : List Char
  language : List Char
  environment : List Char
  intent : List Char
  object_color : List Char
  target_color : List Char
  direction : List Char
  timestamp : List Char
deriving DecidableEq

/-- The projection dropping the audio field, applied to a document. -/
def projectMeta (e : Entry) : EntryMeta :=
  ⟨e.filename, e.speaker_id, e.text, e.language, e.environment, e.intent,
    e.object_color, e.target_color, e.direction, e.timestamp⟩

/-- The CSV header row written by `download_csv` and `download_all`
(lines 164-168 / 214-218): note `environment` comes after `direction`. -/
def csvHeaderRow : List (List Char) :=
  [ chars "filename", chars "speaker_id", chars "text", chars "language",
    chars "intent", chars "object_color", chars "target_color",
    chars "direction", chars "environment", chars "timestamp"]

/-- The CSV data row of one document, columns in the header's order
(each cell via `e.get(field, "")`; our model's metadata fields are always
present, matching every document this code writes). -/
def metaCsvRow (m : EntryMeta) : List (List Char) :=
  [ m.filename, m.speaker_id, m.text, m.language, m.intent, m.object_color,
    m.target_color, m.direction, m.environment, m.timestamp]

/-- The `download_csv` handler (lines 155-188): fetch at most 10000
documents without their audio payload (`to_list(length=10000)`), 404 when
nothing was fetched, else the header row followed by one data row per
fetched document.  The result is the list of CSV rows (cell structure,
before `csv.writer` serialisation). -/
def download_csv (store : Store) : HttpResult (List (List (List Char))) :=
  let entries := (store.take 10000).map projectMeta
  if entries = [] then .error ⟨404, "No data yet."⟩
  else .ok (csvHeaderRow :: entries.map metaCsvRow)

/-- Content of one member of the ZIP bundle: decoded audio bytes, or the
rendered `metadata.csv` (kept as its row structure). -/
inductive ZipData where
  | bytes (bs : List Nat)
  | csvRows (rows : List (List (List Char)))
deriving DecidableEq

/-- One member of the ZIP bundle. -/
structure ZipMember where
  path : List Char
  zipData : ZipData
deriving DecidableEq

/-- Path `audio/<filename>` of an audio member. -/
def audioPath (fn : List Char) : List Char := chars "audio/" ++ fn

/-- The audio members written by the loop of `download_all` (lines
219-234): one `audio/<filename>` member per document having an
`audio_b64` key, in document order; `none` models the uncaught exception
raised when some stored base64 text does not decode. -/
def zipAudioMembers : List Entry → Option (List ZipMember)
  | [] => some []
  | e :: rest =>
    match e.audio_b64 with
    | none => zipAudioMembers rest
    | some enc =>
      match pyB64Decode enc with
      | none => none
      | some bs =>
        match zipAudioMembers rest with
        | none => none
        | some ms => some (⟨audioPath e.filename, .bytes bs⟩ :: ms)

/-- The `download_all` handler (lines 204-243): fetch at most 10000
documents (audio included), 404 when nothing was fetched, else a ZIP
holding one audio member per fetched document that has an audio payload
followed by the single `metadata.csv` member; an undecodable stored
payload raises, surfaced as a 500. -/
def download_all (store : Store) : HttpResult (List ZipMember) :=
  let entries := store.take 10000
  if entries = [] then .error ⟨404, "No data yet."⟩
  else
    match zipAudioMembers entries with
    | none => .error ⟨500, "Internal Server Error"⟩
    | some ms =>
      .ok (ms ++ [⟨chars "metadata.csv",
        .csvRows (csvHeaderRow :: entries.map (fun e => metaCsvRow (projectMeta e)))⟩])

/-- Model of collection.count_documents with an equality filter: the
number of stored entries satisfying the predicate. -/
def count_documents (store : Store) (p : Entry → Bool) : Nat :=
  (store.filter p).length

/-- The nine intents iterated by the `stats` handler (lines 60-62); unlike
`VALID_INTENTS` this list does not contain the empty string. -/
def statsIntentKeys : List (List Char) :=
  [ chars "pick_and_place", chars "pick_object", chars "place_object",
    chars "move_robot", chars "query_weather", chars "query_cricket",
    chars "arm_home", chars "stop", chars "greet"]

/-- The JSON object returned by `GET /stats`. -/
structure StatsResult where
  total : Nat
  bengali : Nat
  english : Nat
  mixed : Nat
  noisy : Nat
  quiet : Nat
  intents : List (List Char × Nat)
deriving DecidableEq

/-- The `stats` handler (lines 49-70). -/
def stats (store : Store) : StatsResult :=
  ⟨store.length,
    count_documents store (fun e => e.language == chars "bengali"),
    count_documents store (fun e => e.language == chars "english"),
    count_documents store (fun e => e.language == chars "mixed"),
    count_documents store (fun e => e.environment == chars "noisy"),
    count_documents store (fun e => e.environment == chars "quiet"),
    statsIntentKeys.map (fun i => (i, count_documents store (fun e => e.intent == i)))⟩

/-- Modelled from the spec: the spec's notion of a valid base64 payload
(standard RFC 4648 base64: length a multiple of four, data characters from
the base64 alphabet, at most two trailing padding characters).  Used only
to compare the spec's wording of claim C4 with what the code accepts. -/
def isValidBase64Spec (l : List Char) : Bool :=
  let data := (l.reverse.dropWhile (fun c => c == '=')).reverse
  decide (l.length % 4 = 0) && decide (l.length - data.length ≤ 2) &&
    data.all (fun c => (b64CharVal c).isSome)

/-- All nine metadata validations of `upload` pass. -/
def uploadMetaOk (inp : UploadInput) : Prop :=
  ¬ (pyStrip inp.text = [] ∨ (pyStrip inp.text).length > 1000) ∧
  ¬ pyUpper (pyStrip inp.speaker_id) = [] ∧
  ¬ (pyUpper (pyStrip inp.speaker_id)).length > 20 ∧
  pyLower inp.language ∈ VALID_LANGUAGES ∧
  pyLower inp.environment ∈ VALID_NOISE ∧
  pyLower inp.intent ∈ VALID_INTENTS ∧
  pyLower inp.object_color ∈ VALID_COLORS ∧
  pyLower inp.target_color ∈ VALID_COLORS ∧
  pyLower inp.direction ∈ VALID_DIRECTIONS

/-- The `HTTPException` that `upload` raises for each audio-decode
failure class. -/
def audioErrorMsg : AudioError → HttpError
  | .malformedAudioFormat => ⟨400, "Invalid audio format."⟩
  | .notAudioContent => ⟨400, "Uploaded data is not audio."⟩
  | .base64DecodeError => ⟨400, "Failed to decode audio data."⟩
  | .audioTooLarge => ⟨400, "Audio exceeds 10MB limit."⟩

/-- A valid concrete upload request, used by witnesses. -/
def inpW : UploadInput :=
  ⟨chars "data:audio/webm;base64,AAAA", chars " Hello ", chars "English",
    chars "quiet", chars " sp1 ", chars "", chars "", chars "", chars ""⟩

/-- The entry persisted for `inpW` (filename `w.webm`, timestamp `t0`). -/
def entryW : Entry :=
  ⟨chars "w.webm", chars "SP1", chars "Hello", chars "english", chars "quiet",
    chars "", chars "", chars "", chars "", chars "t0", some (chars "AAAA")⟩

/-- An upload request with whitespace-only text, used by witnesses. -/
def inpBadText : UploadInput :=
  ⟨chars "data:audio/webm;base64,AAAA", chars "   ", chars "english",
    chars "quiet", chars "S1", chars "", chars "", chars "", chars ""⟩

/-- An upload request whose transcript mixes upper and lower case. -/
def inpMixedCase : UploadInput :=
  ⟨chars "data:audio/webm;base64,AAAA", chars "MiXeD CaSe", chars "english",
    chars "quiet", chars "S1", chars "", chars "", chars "", chars ""⟩

/-- A small concrete stored entry, used by witnesses. -/
def e0 : Entry :=
  ⟨chars "f.webm", chars "S1", chars "hello", chars "english", chars "quiet",
    chars "", chars "", chars "", chars "", chars "t0", some (chars "AAAA")⟩

/-- A stored entry without an audio payload, used by witnesses. -/
def eNoAudio : Entry :=
  ⟨chars "g.webm", chars "S2", chars "hi", chars "bengali", chars "noisy",
    chars "", chars "", chars "", chars "", chars "t1", none⟩

/-- Family of entries with pairwise distinct filenames (`i+1` copies of
letter a) and an empty, decodable audio payload. -/
def mkE (i : Nat) : Entry :=
  ⟨List.replicate (i + 1) 'a', chars "S", chars "t", chars "english",
    chars "quiet", chars "", chars "", chars "", chars "", chars "t0", some []⟩

/-- A store of 10001 entries with pairwise distinct filenames, all with an
audio payload; it exceeds the export fetch cap by one. -/
def store10001 : Store := (List.range 10001).map mkE

/-! ### Helper lemmas -/

theorem splitFirstComma_of_not_mem : ∀ {l : List Char}, ¬ ',' ∈ l → splitFirstComma l = none := by
  intro l
  induction l with
  | nil => intro _; rfl
  | cons c rest ih =>
    intro hm
    have hc : ¬ c = ',' := fun h => hm (h ▸ List.mem_cons_self c rest)
    have hr : ¬ ',' ∈ rest := fun h => hm (List.mem_cons_of_mem c h)
    simp [splitFirstComma, hc, ih hr]

theorem splitFirstComma_of_mem : ∀ {l : List Char}, ',' ∈ l →
    splitFirstComma l = some (headerPart l, payloadPart l) := by
  intro l
  induction l with
  | nil => intro h; cases h
  | cons c rest ih =>
    intro hm
    by_cases hc : c = ','
    · subst hc
      simp [splitFirstComma, headerPart, payloadPart]
    · have hr : ',' ∈ rest := by
        rcases List.mem_cons.mp hm with h | h
        · exact absurd h.symm hc
        · exact h
      have hpc : (!(c == ',')) = true := by simp [hc]
      simp [splitFirstComma, hc, ih hr, headerPart, payloadPart, hpc]

theorem splitFirstComma_none_iff {l : List Char} : splitFirstComma l = none ↔ ¬ ',' ∈ l := by
  constructor
  · intro h hm
    rw [splitFirstComma_of_mem hm] at h
    cases h
  · exact splitFirstComma_of_not_mem

/-- A successful audio decode returns the payload after the first comma,
and the decoded bytes come from that payload and fit the size limit. -/
theorem decodeAudio_ok {a enc : List Char} {bs : List Nat} (h : decodeAudio a = .ok enc bs) :
    enc = payloadPart a ∧ pyB64Decode enc = some bs ∧
      ¬ bs.length > MAX_AUDIO_SIZE_MB * 1024 * 1024 := by
  unfold decodeAudio at h
  split at h
  · exact absurd h (by simp)
  next hdr e hsp =>
    split at h
    · split at h
      · exact absurd h (by simp)
      next bs0 hdec =>
        split at h
        · exact absurd h (by simp)
        next hlen =>
          obtain ⟨rfl, rfl⟩ := by simpa using h
          have hm : ',' ∈ a := by
            by_contra hm
            rw [splitFirstComma_of_not_mem hm] at hsp
            cases hsp
          rw [splitFirstComma_of_mem hm] at hsp
          obtain ⟨-, rfl⟩ := by simpa using hsp
          exact ⟨rfl, hdec, hlen⟩
    · exact absurd h (by simp)

/-! Branch lemmas for `upload`: one per exit point, each under the exact
conditions along its control path. -/

theorem upload_branch_text {inp : UploadInput} (fn ts : List Char) (ok : Bool) (store : Store)
    (h1 : pyStrip inp.text = [] ∨ (pyStrip inp.text).length > 1000) :
    upload inp fn ts ok store = (store, .error ⟨400, "Text must be 1–1000 characters."⟩) := by
  simp [upload, h1]

theorem upload_branch_speaker_missing {inp : UploadInput} (fn ts : List Char) (ok : Bool)
    (store : Store)
    (h1 : ¬ (pyStrip inp.text = [] ∨ (pyStrip inp.text).length > 1000))
    (h2 : pyUpper (pyStrip inp.speaker_id) = []) :
    upload inp fn ts ok store = (store, .error ⟨400, "Speaker ID is required."⟩) := by
  simp [upload, h1, h2]

theorem upload_branch_speaker_long {inp : UploadInput} (fn ts : List Char) (ok : Bool)
    (store : Store)
    (h1 : ¬ (pyStrip inp.text = [] ∨ (pyStrip inp.text).length > 1000))
    (h2 : ¬ pyUpper (pyStrip inp.speaker_id) = [])
    (h3 : (pyUpper (pyStrip inp.speaker_id)).length > 20) :
    upload inp fn ts ok store = (store, .error ⟨400, "Speaker ID too long (max 20 chars)."⟩) := by
  simp [upload, h1, h2, h3]

theorem upload_branch_language {inp : UploadInput} (fn ts : List Char) (ok : Bool)
    (store : Store)
    (h1 : ¬ (pyStrip inp.text = [] ∨ (pyStrip inp.text).length > 1000))
    (h2 : ¬ pyUpper (pyStrip inp.speaker_id) = [])
    (h3 : ¬ (pyUpper (pyStrip inp.speaker_id)).length > 20)
    (h4 : ¬ pyLower inp.language ∈ VALID_LANGUAGES) :
    upload inp fn ts ok store = (store, .error ⟨400, "Language must be one of: VALID_LANGUAGES"⟩) := by
  simp [upload, h1, h2, h3, h4]

theorem upload_branch_environment {inp : UploadInput} (fn ts : List Char) (ok : Bool)
    (store : Store)
    (h1 : ¬ (pyStrip inp.text = [] ∨ (pyStrip inp.text).length > 1000))
    (h2 : ¬ pyUpper (pyStrip inp.speaker_id) = [])
    (h3 : ¬ (pyUpper (pyStrip inp.speaker_id)).length > 20)
    (h4 : pyLower inp.language ∈ VALID_LANGUAGES)
    (h5 : ¬ pyLower inp.environment ∈ VALID_NOISE) :
    upload inp fn ts ok store = (store, .error ⟨400, "Environment must be one of: VALID_NOISE"⟩) := by
  simp [upload, h1, h2, h3, h4, h5]

theorem upload_branch_intent {inp : UploadInput} (fn ts : List Char) (ok : Bool)
    (store : Store)
    (h1 : ¬ (pyStrip inp.text = [] ∨ (pyStrip inp.text).length > 1000))
    (h2 : ¬ pyUpper (pyStrip inp.speaker_id) = [])
    (h3 : ¬ (pyUpper (pyStrip inp.speaker_id)).length > 20)
    (h4 : pyLower inp.language ∈ VALID_LANGUAGES)
    (h5 : pyLower inp.environment ∈ VALID_NOISE)
    (h6 : ¬ pyLower inp.intent ∈ VALID_INTENTS) :
    upload inp fn ts ok store = (store, .error ⟨400, "Intent must be one of: VALID_INTENTS"⟩) := by
  simp [upload, h1, h2, h3, h4, h5, h6]

theorem upload_branch_object_color {inp : UploadInput} (fn ts : List Char) (ok : Bool)
    (store : Store)
    (h1 : ¬ (pyStrip inp.text = [] ∨ (pyStrip inp.text).length > 1000))
    (h2 : ¬ pyUpper (pyStrip inp.speaker_id) = [])
    (h3 : ¬ (pyUpper (pyStrip inp.speaker_id)).length > 20)
    (h4 : pyLower inp.language ∈ VALID_LANGUAGES)
    (h5 : pyLower inp.environment ∈ VALID_NOISE)
    (h6 : pyLower inp.intent ∈ VALID_INTENTS)
    (h7 : ¬ pyLower inp.object_color ∈ VALID_COLORS) :
    upload inp fn ts ok store = (store, .error ⟨400, "Object color must be one of: VALID_COLORS"⟩) := by
  simp [upload, h1, h2, h3, h4, h5, h6, h7]

theorem upload_branch_target_color {inp : UploadInput} (fn ts : List Char) (ok : Bool)
    (store : Store)
    (h1 : ¬ (pyStrip inp.text = [] ∨ (pyStrip inp.text).length > 1000))
    (h2 : ¬ pyUpper (pyStrip inp.speaker_id) = [])
    (h3 : ¬ (pyUpper (pyStrip inp.speaker_id)).length > 20)
    (h4 : pyLower inp.language ∈ VALID_LANGUAGES)
    (h5 : pyLower inp.environment ∈ VALID_NOISE)
    (h6 : pyLower inp.intent ∈ VALID_INTENTS)
    (h7 : pyLower inp.object_color ∈ VALID_COLORS)
    (h8 : ¬ pyLower inp.target_color ∈ VALID_COLORS) :
    upload inp fn ts ok store = (store, .error ⟨400, "Target color must be one of: VALID_COLORS"⟩) := by
  simp [upload, h1, h2, h3, h4, h5, h6, h7, h8]

theorem upload_branch_direction {inp : UploadInput} (fn ts : List Char) (ok : Bool)
    (store : Store)
    (h1 : ¬ (pyStrip inp.text = [] ∨ (pyStrip inp.text).length > 1000))
    (h2 : ¬ pyUpper (pyStrip inp.speaker_id) = [])
    (h3 : ¬ (pyUpper (pyStrip inp.speaker_id)).length > 20)
    (h4 : pyLower inp.language ∈ VALID_LANGUAGES)
    (h5 : pyLower inp.environment ∈ VALID_NOISE)
    (h6 : pyLower inp.intent ∈ VALID_INTENTS)
    (h7 : pyLower inp.object_color ∈ VALID_COLORS)
    (h8 : pyLower inp.target_color ∈ VALID_COLORS)
    (h9 : ¬ pyLower inp.direction ∈ VALID_DIRECTIONS) :
    upload inp fn ts ok store = (store, .error ⟨400, "Direction must be one of: VALID_DIRECTIONS"⟩) := by
  simp [upload, h1, h2, h3, h4, h5, h6, h7, h8, h9]

theorem upload_branch_audio {inp : UploadInput} (fn ts : List Char) (ok : Bool)
    (store : Store) (hmeta : uploadMetaOk inp) {ae : AudioError}
    (hd : decodeAudio inp.audio_data = .error ae) :
    upload inp fn ts ok store = (store, .error (audioErrorMsg ae)) := by
  obtain ⟨h1, h2, h3, h4, h5, h6, h7, h8, h9⟩ := hmeta
  cases ae <;> simp [upload, h1, h2, h3, h4, h5, h6, h7, h8, h9, hd, audioErrorMsg]

theorem upload_branch_insert_fail {inp : UploadInput} (fn ts : List Char)
    (store : Store) (hmeta : uploadMetaOk inp) {enc : List Char} {bs : List Nat}
    (hd : decodeAudio inp.audio_data = .ok enc bs) :
    upload inp fn ts false store = (store, .error ⟨500, "Failed to save to database."⟩) := by
  obtain ⟨h1, h2, h3, h4, h5, h6, h7, h8, h9⟩ := hmeta
  simp [upload, h1, h2, h3, h4, h5, h6, h7, h8, h9, hd]

theorem upload_branch_success {inp : UploadInput} (fn ts : List Char)
    (store : Store) (hmeta : uploadMetaOk inp) {enc : List Char} {bs : List Nat}
    (hd : decodeAudio inp.audio_data = .ok enc bs) :
    upload inp fn ts true store = (store ++ [uploadEntry inp fn ts], .ok fn) := by
  obtain ⟨h1, h2, h3, h4, h5, h6, h7, h8, h9⟩ := hmeta
  obtain ⟨henc, -, -⟩ := decodeAudio_ok hd
  subst henc
  simp [upload, h1, h2, h3, h4, h5, h6, h7, h8, h9, hd, uploadEntry]

/-- Exhaustive case analysis of the `upload` handler: exactly one of the
twelve exit points fires. -/
theorem upload_cases (inp : UploadInput) (fn ts : List Char) (ok : Bool) (store : Store) :
    ((pyStrip inp.text = [] ∨ (pyStrip inp.text).length > 1000) ∧
      upload inp fn ts ok store = (store, .error ⟨400, "Text must be 1–1000 characters."⟩)) ∨
    (¬ (pyStrip inp.text = [] ∨ (pyStrip inp.text).length > 1000) ∧
      pyUpper (pyStrip inp.speaker_id) = [] ∧
      upload inp fn ts ok store = (store, .error ⟨400, "Speaker ID is required."⟩)) ∨
    (¬ (pyStrip inp.text = [] ∨ (pyStrip inp.text).length > 1000) ∧
      ¬ pyUpper (pyStrip inp.speaker_id) = [] ∧
      (pyUpper (pyStrip inp.speaker_id)).length > 20 ∧
      upload inp fn ts ok store = (store, .error ⟨400, "Speaker ID too long (max 20 chars)."⟩)) ∨
    (¬ (pyStrip inp.text = [] ∨ (pyStrip inp.text).length > 1000) ∧
      ¬ pyUpper (pyStrip inp.speaker_id) = [] ∧
      ¬ (pyUpper (pyStrip inp.speaker_id)).length > 20 ∧
      ¬ pyLower inp.language ∈ VALID_LANGUAGES ∧
      upload inp fn ts ok store = (store, .error ⟨400, "Language must be one of: VALID_LANGUAGES"⟩)) ∨
    (¬ (pyStrip inp.text = [] ∨ (pyStrip inp.text).length > 1000) ∧
      ¬ pyUpper (pyStrip inp.speaker_id) = [] ∧
      ¬ (pyUpper (pyStrip inp.speaker_id)).length > 20 ∧
      pyLower inp.language ∈ VALID_LANGUAGES ∧
      ¬ pyLower inp.environment ∈ VALID_NOISE ∧
      upload inp fn ts ok store = (store, .error ⟨400, "Environment must be one of: VALID_NOISE"⟩)) ∨
    (¬ (pyStrip inp.text = [] ∨ (pyStrip inp.text).length > 1000) ∧
      ¬ pyUpper (pyStrip inp.speaker_id) = [] ∧
      ¬ (pyUpper (pyStrip inp.speaker_id)).length > 20 ∧
      pyLower inp.language ∈ VALID_LANGUAGES ∧
      pyLower inp.environment ∈ VALID_NOISE ∧
      ¬ pyLower inp.intent ∈ VALID_INTENTS ∧
      upload inp fn ts ok store = (store, .error ⟨400, "Intent must be one of: VALID_INTENTS"⟩)) ∨
    (¬ (pyStrip inp.text = [] ∨ (pyStrip inp.text).length > 1000) ∧
      ¬ pyUpper (pyStrip inp.speaker_id) = [] ∧
      ¬ (pyUpper (pyStrip inp.speaker_id)).length > 20 ∧
      pyLower inp.language ∈ VALID_LANGUAGES ∧
      pyLower inp.environment ∈ VALID_NOISE ∧
      pyLower inp.intent ∈ VALID_INTENTS ∧
      ¬ pyLower inp.object_color ∈ VALID_COLORS ∧
      upload inp fn ts ok store = (store, .error ⟨400, "Object color must be one of: VALID_COLORS"⟩)) ∨
    (¬ (pyStrip inp.text = [] ∨ (pyStrip inp.text).length > 1000) ∧
      ¬ pyUpper (pyStrip inp.speaker_id) = [] ∧
      ¬ (pyUpper (pyStrip inp.speaker_id)).length > 20 ∧
      pyLower inp.language ∈ VALID_LANGUAGES ∧
      pyLower inp.environment ∈ VALID_NOISE ∧
      pyLower inp.intent ∈ VALID_INTENTS ∧
      pyLower inp.object_color ∈ VALID_COLORS ∧
      ¬ pyLower inp.target_color ∈ VALID_COLORS ∧
      upload inp fn ts ok store = (store, .error ⟨400, "Target color must be one of: VALID_COLORS"⟩)) ∨
    (¬ (pyStrip inp.text = [] ∨ (pyStrip inp.text).length > 1000) ∧
      ¬ pyUpper (pyStrip inp.speaker_id) = [] ∧
      ¬ (pyUpper (pyStrip inp.speaker_id)).length > 20 ∧
      pyLower inp.language ∈ VALID_LANGUAGES ∧
      pyLower inp.environment ∈ VALID_NOISE ∧
      pyLower inp.intent ∈ VALID_INTENTS ∧
      pyLower inp.object_color ∈ VALID_COLORS ∧
      pyLower inp.target_color ∈ VALID_COLORS ∧
      ¬ pyLower inp.direction ∈ VALID_DIRECTIONS ∧
      upload inp fn ts ok store = (store, .error ⟨400, "Direction must be one of: VALID_DIRECTIONS"⟩)) ∨
    (uploadMetaOk inp ∧ ∃ ae, decodeAudio inp.audio_data = .error ae ∧
      upload inp fn ts ok store = (store, .error (audioErrorMsg ae))) ∨
    (uploadMetaOk inp ∧ (∃ bs, decodeAudio inp.audio_data = .ok (payloadPart inp.audio_data) bs) ∧
      ok = false ∧
      upload inp fn ts ok store = (store, .error ⟨500, "Failed to save to database."⟩)) ∨
    (uploadMetaOk inp ∧ (∃ bs, decodeAudio inp.audio_data = .ok (payloadPart inp.audio_data) bs) ∧
      ok = true ∧
      upload inp fn ts ok store = (store ++ [uploadEntry inp fn ts], .ok fn)) := by
  by_cases h1 : pyStrip inp.text = [] ∨ (pyStrip inp.text).length > 1000
  · exact Or.inl ⟨h1, upload_branch_text fn ts ok store h1⟩
  refine Or.inr ?_
  by_cases h2 : pyUpper (pyStrip inp.speaker_id) = []
  · exact Or.inl ⟨h1, h2, upload_branch_speaker_missing fn ts ok store h1 h2⟩
  refine Or.inr ?_
  by_cases h3 : (pyUpper (pyStrip inp.speaker_id)).length > 20
  · exact Or.inl ⟨h1, h2, h3, upload_branch_speaker_long fn ts ok store h1 h2 h3⟩
  refine Or.inr ?_
  by_cases h4 : pyLower inp.language ∈ VALID_LANGUAGES
  · refine Or.inr ?_
    by_cases h5 : pyLower inp.environment ∈ VALID_NOISE
    · refine Or.inr ?_
      by_cases h6 : pyLower inp.intent ∈ VALID_INTENTS
      · refine Or.inr ?_
        by_cases h7 : pyLower inp.object_color ∈ VALID_COLORS
        · refine Or.inr ?_
          by_cases h8 : pyLower inp.target_color ∈ VALID_COLORS
          · refine Or.inr ?_
            by_cases h9 : pyLower inp.direction ∈ VALID_DIRECTIONS
            · refine Or.inr ?_
              have hmeta : uploadMetaOk inp := ⟨h1, h2, h3, h4, h5, h6, h7, h8, h9⟩
              cases hd : decodeAudio inp.audio_data with
              | error ae =>
                exact Or.inl ⟨hmeta, ae, rfl, upload_branch_audio fn ts ok store hmeta hd⟩
              | ok enc bs =>
                obtain ⟨henc, -, -⟩ := decodeAudio_ok hd
                subst henc
                refine Or.inr ?_
                cases ok with
                | false =>
                  exact Or.inl ⟨hmeta, ⟨bs, rfl⟩, rfl,
                    upload_branch_insert_fail fn ts store hmeta hd⟩
                | true =>
                  exact Or.inr ⟨hmeta, ⟨bs, rfl⟩, rfl,
                    upload_branch_success fn ts store hmeta hd⟩
            · exact Or.inl ⟨h1, h2, h3, h4, h5, h6, h7, h8, h9,
                upload_branch_direction fn ts ok store h1 h2 h3 h4 h5 h6 h7 h8 h9⟩
          · exact Or.inl ⟨h1, h2, h3, h4, h5, h6, h7, h8,
              upload_branch_target_color fn ts ok store h1 h2 h3 h4 h5 h6 h7 h8⟩
        · exact Or.inl ⟨h1, h2, h3, h4, h5, h6, h7,
            upload_branch_object_color fn ts ok store h1 h2 h3 h4 h5 h6 h7⟩
      · exact Or.inl ⟨h1, h2, h3, h4, h5, h6,
          upload_branch_intent fn ts ok store h1 h2 h3 h4 h5 h6⟩
    · exact Or.inl ⟨h1, h2, h3, h4, h5,
        upload_branch_environment fn ts ok store h1 h2 h3 h4 h5⟩
  · exact Or.inl ⟨h1, h2, h3, h4, upload_branch_language fn ts ok store h1 h2 h3 h4⟩

/-! ### Claim theorems -/

/-- C1: for every upload input that passes validation and audio decoding
(expressed by the hypothesis that `upload` succeeded, under a fresh
generated filename), looking the returned filename up yields a record
whose fields are the normalized input — text trimmed, speaker_id trimmed
and upper-cased, the six enumerated fields lower-cased — and downloading
that entry's audio returns exactly the bytes decoded from the uploaded
payload. -/
theorem c1_upload_get_download_roundtrip (inp : UploadInput) (fn ts : List Char) (ok : Bool)
    (store st' : Store) (resp : List Char)
    (hfresh : ∀ e ∈ store, ¬ e.filename = fn)
    (h : upload inp fn ts ok store = (st', .ok resp)) :
    resp = fn ∧
    ∃ bs, pyB64Decode (payloadPart inp.audio_data) = some bs ∧
      getByFilename st' fn =
        some ⟨fn, pyUpper (pyStrip inp.speaker_id), pyStrip inp.text,
          pyLower inp.language, pyLower inp.environment, pyLower inp.intent,
          pyLower inp.object_color, pyLower inp.target_color, pyLower inp.direction,
          ts, some (payloadPart inp.audio_data)⟩ ∧
      download_audio st' fn = .ok bs := by
  rcases upload_cases inp fn ts ok store with
      ⟨-, hU⟩ | ⟨-, -, hU⟩ | ⟨-, -, -, hU⟩ | ⟨-, -, -, -, hU⟩ | ⟨-, -, -, -, -, hU⟩ |
      ⟨-, -, -, -, -, -, hU⟩ | ⟨-, -, -, -, -, -, -, hU⟩ | ⟨-, -, -, -, -, -, -, -, hU⟩ |
      ⟨-, -, -, -, -, -, -, -, -, hU⟩ | ⟨-, ae, -, hU⟩ | ⟨-, -, -, hU⟩ | ⟨-, ⟨bs, hd⟩, -, hU⟩
  iterate 11 exact absurd (h.symm.trans hU) (by simp)
  have h2 := h.symm.trans hU
  injection h2 with hst hresp
  injection hresp with hresp
  obtain ⟨-, hdec, -⟩ := decodeAudio_ok hd
  have hnone : store.find? (fun e => e.filename == fn) = none :=
    List.find?_eq_none.mpr fun e he => by simp [hfresh e he]
  have hget : getByFilename (store ++ [uploadEntry inp fn ts]) fn =
      some (uploadEntry inp fn ts) := by
    simp [getByFilename, List.find?_append, hnone, uploadEntry]
  refine ⟨hresp, bs, hdec, ?_, ?_⟩
  · rw [hst]
    exact hget
  · rw [hst]
    unfold download_audio
    rw [hget]
    simp [uploadEntry, hdec]

/-- Witness for C1 at a concrete valid upload. -/
theorem c1_witness :
    chars "w.webm" = chars "w.webm" ∧
    ∃ bs, pyB64Decode (payloadPart inpW.audio_data) = some bs ∧
      getByFilename [entryW] (chars "w.webm") =
        some ⟨chars "w.webm", pyUpper (pyStrip inpW.speaker_id), pyStrip inpW.text,
          pyLower inpW.language, pyLower inpW.environment, pyLower inpW.intent,
          pyLower inpW.object_color, pyLower inpW.target_color, pyLower inpW.direction,
          chars "t0", some (payloadPart inpW.audio_data)⟩ ∧
      download_audio [entryW] (chars "w.webm") = .ok bs :=
  c1_upload_get_download_roundtrip inpW (chars "w.webm") (chars "t0") true [] [entryW]
    (chars "w.webm") (by simp) (by decide)

/-- C2: whenever `upload` fails — validation, audio decoding or the
database insert — the store is unchanged and no entry becomes queryable. -/
theorem c2_failed_upload_leaves_store_unchanged (inp : UploadInput) (fn ts : List Char)
    (ok : Bool) (store st' : Store) (err : HttpError)
    (h : upload inp fn ts ok store = (st', .error err)) :
    st' = store ∧ ∀ f, getByFilename st' f = getByFilename store f := by
  rcases upload_cases inp fn ts ok store with
      ⟨-, hU⟩ | ⟨-, -, hU⟩ | ⟨-, -, -, hU⟩ | ⟨-, -, -, -, hU⟩ | ⟨-, -, -, -, -, hU⟩ |
      ⟨-, -, -, -, -, -, hU⟩ | ⟨-, -, -, -, -, -, -, hU⟩ | ⟨-, -, -, -, -, -, -, -, hU⟩ |
      ⟨-, -, -, -, -, -, -, -, -, hU⟩ | ⟨-, ae, -, hU⟩ | ⟨-, -, -, hU⟩ | ⟨-, -, -, hU⟩
  iterate 11
    first
    | (injection h.symm.trans hU with hst hresp
       exact ⟨hst, fun f => by rw [hst]⟩)
  exact absurd (h.symm.trans hU) (by simp)

/-- Witness for C2 at a concrete failing upload (whitespace-only text). -/
theorem c2_witness :
    ([] : Store) = [] ∧ ∀ f, getByFilename [] f = getByFilename [] f :=
  c2_failed_upload_leaves_store_unchanged inpBadText (chars "w.webm") (chars "t0") true [] []
    ⟨400, "Text must be 1–1000 characters."⟩ (by decide)

/-- C3 (amended): every successful upload persists exactly one new entry,
and each of its fields is stored in that field's normal form — text
trimmed, speaker_id trimmed and upper-cased, the six enumerated fields
lower-cased, audio_b64 exactly the uploaded base64 payload.  The text
field (and the audio payload) keep the client's raw casing, so the raw
casing IS stored for text; see `c3_raw_text_casing_stored`. -/
theorem c3_persisted_fields_normalized (inp : UploadInput) (fn ts : List Char) (ok : Bool)
    (store st' : Store) (resp : List Char)
    (h : upload inp fn ts ok store = (st', .ok resp)) :
    ∃ e, st' = store ++ [e] ∧
      e.filename = fn ∧ e.timestamp = ts ∧
      e.text = pyStrip inp.text ∧
      e.speaker_id = pyUpper (pyStrip inp.speaker_id) ∧
      e.language = pyLower inp.language ∧
      e.environment = pyLower inp.environment ∧
      e.intent = pyLower inp.intent ∧
      e.object_color = pyLower inp.object_color ∧
      e.target_color = pyLower inp.target_color ∧
      e.direction = pyLower inp.direction ∧
      e.audio_b64 = some (payloadPart inp.audio_data) := by
  rcases upload_cases inp fn ts ok store with
      ⟨-, hU⟩ | ⟨-, -, hU⟩ | ⟨-, -, -, hU⟩ | ⟨-, -, -, -, hU⟩ | ⟨-, -, -, -, -, hU⟩ |
      ⟨-, -, -, -, -, -, hU⟩ | ⟨-, -, -, -, -, -, -, hU⟩ | ⟨-, -, -, -, -, -, -, -, hU⟩ |
      ⟨-, -, -, -, -, -, -, -, -, hU⟩ | ⟨-, ae, -, hU⟩ | ⟨-, -, -, hU⟩ | ⟨-, -, -, hU⟩
  iterate 11 exact absurd (h.symm.trans hU) (by simp)
  injection h.symm.trans hU with hst hresp
  exact ⟨uploadEntry inp fn ts, hst, by simp [uploadEntry]⟩

/-- Counterexample for C3 as stated: a successful upload whose transcript
is `MiXeD CaSe` stores the raw client string verbatim — the persisted text
equals the raw input and is in neither lower nor upper case, so the raw
casing supplied by the client is stored for the text field. -/
theorem c3_raw_text_casing_stored :
    (upload inpMixedCase (chars "f.webm") (chars "t0") true []).1.map Entry.text
        = [ chars "MiXeD CaSe"] ∧
    inpMixedCase.text = chars "MiXeD CaSe" ∧
    ¬ pyLower (chars "MiXeD CaSe") = chars "MiXeD CaSe" ∧
    ¬ pyUpper (chars "MiXeD CaSe") = chars "MiXeD CaSe" := by decide

/-- Witness for C3 (amended) at a concrete successful upload. -/
theorem c3_witness :
    ∃ e, ([entryW] : Store) = [] ++ [e] ∧
      e.filename = chars "w.webm" ∧ e.timestamp = chars "t0" ∧
      e.text = pyStrip inpW.text ∧
      e.speaker_id = pyUpper (pyStrip inpW.speaker_id) ∧
      e.language = pyLower inpW.language ∧
      e.environment = pyLower inpW.environment ∧
      e.intent = pyLower inpW.intent ∧
      e.object_color = pyLower inpW.object_color ∧
      e.target_color = pyLower inpW.target_color ∧
      e.direction = pyLower inpW.direction ∧
      e.audio_b64 = some (payloadPart inpW.audio_data) :=
  c3_persisted_fields_normalized inpW (chars "w.webm") (chars "t0") true [] [entryW]
    (chars "w.webm") (by decide)

/-- C4 (amended): audio decoding fails exactly under these conditions,
checked in order — no comma (MalformedAudioFormat); the prefix before the
first comma does not start with `data:audio/` (NotAudioContent); the
payload after the comma is rejected by Python's lenient base64 decoder,
which discards characters outside the base64 alphabet and fails only on
non-ASCII input or an incomplete final quad (Base64DecodeError); decoded
length exceeding 10*1024*1024 bytes (AudioTooLarge); otherwise decoding
succeeds.  Not every payload that fails standard base64 validity is
rejected: see `c4_invalid_base64_payload_accepted`. -/
theorem c4_audio_decode_classification (a : List Char) :
    (decodeAudio a = .error .malformedAudioFormat ↔ ¬ ',' ∈ a) ∧
    (decodeAudio a = .error .notAudioContent ↔
      ',' ∈ a ∧ startsWithList dataAudioMarker (headerPart a) = false) ∧
    (decodeAudio a = .error .base64DecodeError ↔
      ',' ∈ a ∧ startsWithList dataAudioMarker (headerPart a) = true ∧
        pyB64Decode (payloadPart a) = none) ∧
    (decodeAudio a = .error .audioTooLarge ↔
      ',' ∈ a ∧ startsWithList dataAudioMarker (headerPart a) = true ∧
        ∃ bs, pyB64Decode (payloadPart a) = some bs ∧
          bs.length > MAX_AUDIO_SIZE_MB * 1024 * 1024) ∧
    (∀ bs, decodeAudio a = .ok (payloadPart a) bs ↔
      ',' ∈ a ∧ startsWithList dataAudioMarker (headerPart a) = true ∧
        pyB64Decode (payloadPart a) = some bs ∧
        ¬ bs.length > MAX_AUDIO_SIZE_MB * 1024 * 1024) := by
  by_cases hm : ',' ∈ a
  · have hsp := splitFirstComma_of_mem hm
    cases hsw : startsWithList dataAudioMarker (headerPart a) with
    | false => simp [decodeAudio, hsp, hsw, hm]
    | true =>
      cases hdec : pyB64Decode (payloadPart a) with
      | none => simp [decodeAudio, hsp, hsw, hm, hdec]
      | some bs0 =>
        by_cases hlen : bs0.length > MAX_AUDIO_SIZE_MB * 1024 * 1024
        · simp [decodeAudio, hsp, hsw, hm, hdec, hlen]
        · refine ⟨by simp [decodeAudio, hsp, hsw, hm, hdec, hlen],
            by simp [decodeAudio, hsp, hsw, hm, hdec, hlen],
            by simp [decodeAudio, hsp, hsw, hm, hdec, hlen],
            by simp [decodeAudio, hsp, hsw, hm, hdec, hlen], ?_⟩
          intro bs
          constructor
          · intro h
            obtain ⟨-, hd2, hl2⟩ := decodeAudio_ok h
            exact ⟨hm, rfl, hdec.symm.trans hd2, hl2⟩
          · rintro ⟨-, -, hbs, -⟩
            have hb : bs0 = bs := by simpa using hbs
            subst hb
            simp [decodeAudio, hsp, hsw, hdec, hlen]
  · have hsp := splitFirstComma_of_not_mem hm
    simp [decodeAudio, hsp, hm]

/-- Counterexample for C4 as stated: the payload after the comma consists
of four exclamation marks, which is not valid base64, yet the code accepts
it (Python's `b64decode` silently discards characters outside the base64
alphabet), decoding it to zero bytes instead of failing with
Base64DecodeError. -/
theorem c4_invalid_base64_payload_accepted :
    isValidBase64Spec (chars "!!!!") = false ∧
    payloadPart (chars "data:audio/webm;base64,!!!!") = chars "!!!!" ∧
    decodeAudio (chars "data:audio/webm;base64,!!!!") = .ok (chars "!!!!") [] := by decide

/-- C5: when several fields are invalid, the error reported is the one for
the first offending field in the fixed order text, speaker_id, language,
environment, intent, object_color, target_color, direction, audio, each
with the message describing that field's allowed set or range. -/
theorem c5_first_failure_order (inp : UploadInput) (fn ts : List Char) (ok : Bool)
    (store : Store) :
    ((pyStrip inp.text = [] ∨ (pyStrip inp.text).length > 1000) →
      (upload inp fn ts ok store).2 = .error ⟨400, "Text must be 1–1000 characters."⟩) ∧
    (¬ (pyStrip inp.text = [] ∨ (pyStrip inp.text).length > 1000) →
      pyUpper (pyStrip inp.speaker_id) = [] →
      (upload inp fn ts ok store).2 = .error ⟨400, "Speaker ID is required."⟩) ∧
    (¬ (pyStrip inp.text = [] ∨ (pyStrip inp.text).length > 1000) →
      ¬ pyUpper (pyStrip inp.speaker_id) = [] →
      (pyUpper (pyStrip inp.speaker_id)).length > 20 →
      (upload inp fn ts ok store).2 = .error ⟨400, "Speaker ID too long (max 20 chars)."⟩) ∧
    (¬ (pyStrip inp.text = [] ∨ (pyStrip inp.text).length > 1000) →
      ¬ pyUpper (pyStrip inp.speaker_id) = [] →
      ¬ (pyUpper (pyStrip inp.speaker_id)).length > 20 →
      ¬ pyLower inp.language ∈ VALID_LANGUAGES →
      (upload inp fn ts ok store).2 = .error ⟨400, "Language must be one of: VALID_LANGUAGES"⟩) ∧
    (¬ (pyStrip inp.text = [] ∨ (pyStrip inp.text).length > 1000) →
      ¬ pyUpper (pyStrip inp.speaker_id) = [] →
      ¬ (pyUpper (pyStrip inp.speaker_id)).length > 20 →
      pyLower inp.language ∈ VALID_LANGUAGES →
      ¬ pyLower inp.environment ∈ VALID_NOISE →
      (upload inp fn ts ok store).2 = .error ⟨400, "Environment must be one of: VALID_NOISE"⟩) ∧
    (¬ (pyStrip inp.text = [] ∨ (pyStrip inp.text).length > 1000) →
      ¬ pyUpper (pyStrip inp.speaker_id) = [] →
      ¬ (pyUpper (pyStrip inp.speaker_id)).length > 20 →
      pyLower inp.language ∈ VALID_LANGUAGES →
      pyLower inp.environment ∈ VALID_NOISE →
      ¬ pyLower inp.intent ∈ VALID_INTENTS →
      (upload inp fn ts ok store).2 = .error ⟨400, "Intent must be one of: VALID_INTENTS"⟩) ∧
    (¬ (pyStrip inp.text = [] ∨ (pyStrip inp.text).length > 1000) →
      ¬ pyUpper (pyStrip inp.speaker_id) = [] →
      ¬ (pyUpper (pyStrip inp.speaker_id)).length > 20 →
      pyLower inp.language ∈ VALID_LANGUAGES →
      pyLower inp.environment ∈ VALID_NOISE →
      pyLower inp.intent ∈ VALID_INTENTS →
      ¬ pyLower inp.object_color ∈ VALID_COLORS →
      (upload inp fn ts ok store).2 = .error ⟨400, "Object color must be one of: VALID_COLORS"⟩) ∧
    (¬ (pyStrip inp.text = [] ∨ (pyStrip inp.text).length > 1000) →
      ¬ pyUpper (pyStrip inp.speaker_id) = [] →
      ¬ (pyUpper (pyStrip inp.speaker_id)).length > 20 →
      pyLower inp.language ∈ VALID_LANGUAGES →
      pyLower inp.environment ∈ VALID_NOISE →
      pyLower inp.intent ∈ VALID_INTENTS →
      pyLower inp.object_color ∈ VALID_COLORS →
      ¬ pyLower inp.target_color ∈ VALID_COLORS →
      (upload inp fn ts ok store).2 = .error ⟨400, "Target color must be one of: VALID_COLORS"⟩) ∧
    (¬ (pyStrip inp.text = [] ∨ (pyStrip inp.text).length > 1000) →
      ¬ pyUpper (pyStrip inp.speaker_id) = [] →
      ¬ (pyUpper (pyStrip inp.speaker_id)).length > 20 →
      pyLower inp.language ∈ VALID_LANGUAGES →
      pyLower inp.environment ∈ VALID_NOISE →
      pyLower inp.intent ∈ VALID_INTENTS →
      pyLower inp.object_color ∈ VALID_COLORS →
      pyLower inp.target_color ∈ VALID_COLORS →
      ¬ pyLower inp.direction ∈ VALID_DIRECTIONS →
      (upload inp fn ts ok store).2 = .error ⟨400, "Direction must be one of: VALID_DIRECTIONS"⟩) ∧
    (uploadMetaOk inp → ∀ ae, decodeAudio inp.audio_data = .error ae →
      (upload inp fn ts ok store).2 = .error (audioErrorMsg ae)) := by
  refine ⟨fun h1 => ?_, fun h1 h2 => ?_, fun h1 h2 h3 => ?_, fun h1 h2 h3 h4 => ?_,
    fun h1 h2 h3 h4 h5 => ?_, fun h1 h2 h3 h4 h5 h6 => ?_, fun h1 h2 h3 h4 h5 h6 h7 => ?_,
    fun h1 h2 h3 h4 h5 h6 h7 h8 => ?_, fun h1 h2 h3 h4 h5 h6 h7 h8 h9 => ?_,
    fun hmeta ae hae => ?_⟩
  · exact congrArg Prod.snd (upload_branch_text fn ts ok store h1)
  · exact congrArg Prod.snd (upload_branch_speaker_missing fn ts ok store h1 h2)
  · exact congrArg Prod.snd (upload_branch_speaker_long fn ts ok store h1 h2 h3)
  · exact congrArg Prod.snd (upload_branch_language fn ts ok store h1 h2 h3 h4)
  · exact congrArg Prod.snd (upload_branch_environment fn ts ok store h1 h2 h3 h4 h5)
  · exact congrArg Prod.snd (upload_branch_intent fn ts ok store h1 h2 h3 h4 h5 h6)
  · exact congrArg Prod.snd (upload_branch_object_color fn ts ok store h1 h2 h3 h4 h5 h6 h7)
  · exact congrArg Prod.snd (upload_branch_target_color fn ts ok store h1 h2 h3 h4 h5 h6 h7 h8)
  · exact congrArg Prod.snd (upload_branch_direction fn ts ok store h1 h2 h3 h4 h5 h6 h7 h8 h9)
  · exact congrArg Prod.snd (upload_branch_audio fn ts ok store hmeta hae)

/-- Witness for C5 at a concrete request with whitespace-only text. -/
theorem c5_witness :
    (pyStrip inpBadText.text = [] ∨ (pyStrip inpBadText.text).length > 1000) ∧
    (upload inpBadText (chars "w.webm") (chars "t0") true []).2 =
      .error ⟨400, "Text must be 1–1000 characters."⟩ :=
  ⟨by decide,
    (c5_first_failure_order inpBadText (chars "w.webm") (chars "t0") true []).1 (by decide)⟩

/-- C6: validation fails on the text field exactly when the trimmed text
is empty or longer than 1000 characters. -/
theorem c6_text_validation_iff (inp : UploadInput) (fn ts : List Char) (ok : Bool)
    (store : Store) :
    (upload inp fn ts ok store).2 = .error ⟨400, "Text must be 1–1000 characters."⟩ ↔
      (pyStrip inp.text = [] ∨ (pyStrip inp.text).length > 1000) := by
  constructor
  · intro h
    rcases upload_cases inp fn ts ok store with
        ⟨c1, hU⟩ | ⟨-, -, hU⟩ | ⟨-, -, -, hU⟩ | ⟨-, -, -, -, hU⟩ | ⟨-, -, -, -, -, hU⟩ |
        ⟨-, -, -, -, -, -, hU⟩ | ⟨-, -, -, -, -, -, -, hU⟩ | ⟨-, -, -, -, -, -, -, -, hU⟩ |
        ⟨-, -, -, -, -, -, -, -, -, hU⟩ | ⟨-, ae, -, hU⟩ | ⟨-, -, -, hU⟩ | ⟨-, -, -, hU⟩
    · exact c1
    iterate 8
      (rw [hU] at h
       simp at h)
    · cases ae <;>
        (rw [hU] at h
         simp [audioErrorMsg] at h)
    iterate 2
      (rw [hU] at h
       simp at h)
  · intro c1
    exact congrArg Prod.snd (upload_branch_text fn ts ok store c1)

/-- C7: each enumerated field is rejected exactly when its lower-cased
value is outside the field's fixed set (the sets are lower-case closed, so
this is the case-insensitive match); the optional sets contain the empty
string, so an unset optional field passes; and a successful upload stores
every enumerated field lower-cased. -/
theorem c7_enum_field_validation (inp : UploadInput) (fn ts : List Char) (ok : Bool)
    (store : Store) :
    ((upload inp fn ts ok store).2 = .error ⟨400, "Language must be one of: VALID_LANGUAGES"⟩ ↔
      ¬ (pyStrip inp.text = [] ∨ (pyStrip inp.text).length > 1000) ∧
      ¬ pyUpper (pyStrip inp.speaker_id) = [] ∧
      ¬ (pyUpper (pyStrip inp.speaker_id)).length > 20 ∧
      ¬ pyLower inp.language ∈ VALID_LANGUAGES) ∧
    ((upload inp fn ts ok store).2 = .error ⟨400, "Environment must be one of: VALID_NOISE"⟩ ↔
      ¬ (pyStrip inp.text = [] ∨ (pyStrip inp.text).length > 1000) ∧
      ¬ pyUpper (pyStrip inp.speaker_id) = [] ∧
      ¬ (pyUpper (pyStrip inp.speaker_id)).length > 20 ∧
      pyLower inp.language ∈ VALID_LANGUAGES ∧
      ¬ pyLower inp.environment ∈ VALID_NOISE) ∧
    ((upload inp fn ts ok store).2 = .error ⟨400, "Intent must be one of: VALID_INTENTS"⟩ ↔
      ¬ (pyStrip inp.text = [] ∨ (pyStrip inp.text).length > 1000) ∧
      ¬ pyUpper (pyStrip inp.speaker_id) = [] ∧
      ¬ (pyUpper (pyStrip inp.speaker_id)).length > 20 ∧
      pyLower inp.language ∈ VALID_LANGUAGES ∧
      pyLower inp.environment ∈ VALID_NOISE ∧
      ¬ pyLower inp.intent ∈ VALID_INTENTS) ∧
    ((upload inp fn ts ok store).2 = .error ⟨400, "Object color must be one of: VALID_COLORS"⟩ ↔
      ¬ (pyStrip inp.text = [] ∨ (pyStrip inp.text).length > 1000) ∧
      ¬ pyUpper (pyStrip inp.speaker_id) = [] ∧
      ¬ (pyUpper (pyStrip inp.speaker_id)).length > 20 ∧
      pyLower inp.language ∈ VALID_LANGUAGES ∧
      pyLower inp.environment ∈ VALID_NOISE ∧
      pyLower inp.intent ∈ VALID_INTENTS ∧
      ¬ pyLower inp.object_color ∈ VALID_COLORS) ∧
    ((upload inp fn ts ok store).2 = .error ⟨400, "Target color must be one of: VALID_COLORS"⟩ ↔
      ¬ (pyStrip inp.text = [] ∨ (pyStrip inp.text).length > 1000) ∧
      ¬ pyUpper (pyStrip inp.speaker_id) = [] ∧
      ¬ (pyUpper (pyStrip inp.speaker_id)).length > 20 ∧
      pyLower inp.language ∈ VALID_LANGUAGES ∧
      pyLower inp.environment ∈ VALID_NOISE ∧
      pyLower inp.intent ∈ VALID_INTENTS ∧
      pyLower inp.object_color ∈ VALID_COLORS ∧
      ¬ pyLower inp.target_color ∈ VALID_COLORS) ∧
    ((upload inp fn ts ok store).2 = .error ⟨400, "Direction must be one of: VALID_DIRECTIONS"⟩ ↔
      ¬ (pyStrip inp.text = [] ∨ (pyStrip inp.text).length > 1000) ∧
      ¬ pyUpper (pyStrip inp.speaker_id) = [] ∧
      ¬ (pyUpper (pyStrip inp.speaker_id)).length > 20 ∧
      pyLower inp.language ∈ VALID_LANGUAGES ∧
      pyLower inp.environment ∈ VALID_NOISE ∧
      pyLower inp.intent ∈ VALID_INTENTS ∧
      pyLower inp.object_color ∈ VALID_COLORS ∧
      pyLower inp.target_color ∈ VALID_COLORS ∧
      ¬ pyLower inp.direction ∈ VALID_DIRECTIONS) ∧
    ((VALID_LANGUAGES ++ VALID_NOISE ++ VALID_INTENTS ++ VALID_COLORS ++
        VALID_DIRECTIONS).all (fun m => pyLower m == m) = true) ∧
    (chars "" ∈ VALID_INTENTS ∧ chars "" ∈ VALID_COLORS ∧ chars "" ∈ VALID_DIRECTIONS) ∧
    (∀ st' resp, upload inp fn ts ok store = (st', .ok resp) →
      ∃ e, st' = store ++ [e] ∧ e.language = pyLower inp.language ∧
        e.environment = pyLower inp.environment ∧ e.intent = pyLower inp.intent ∧
        e.object_color = pyLower inp.object_color ∧
        e.target_color = pyLower inp.target_color ∧
        e.direction = pyLower inp.direction) := by
  refine ⟨?_, ?_, ?_, ?_, ?_, ?_, by decide, by decide, ?_⟩
  · constructor
    · intro h
      rcases upload_cases inp fn ts ok store with
          ⟨-, hU⟩ | ⟨-, -, hU⟩ | ⟨-, -, -, hU⟩ | ⟨n1, n2, n3, c4, hU⟩ | ⟨-, -, -, -, -, hU⟩ |
          ⟨-, -, -, -, -, -, hU⟩ | ⟨-, -, -, -, -, -, -, hU⟩ | ⟨-, -, -, -, -, -, -, -, hU⟩ |
          ⟨-, -, -, -, -, -, -, -, -, hU⟩ | ⟨-, ae, -, hU⟩ | ⟨-, -, -, hU⟩ | ⟨-, -, -, hU⟩
      iterate 3
        (rw [hU] at h
         simp at h)
      · exact ⟨n1, n2, n3, c4⟩
      iterate 5
        (rw [hU] at h
         simp at h)
      · cases ae <;>
          (rw [hU] at h
           simp [audioErrorMsg] at h)
      iterate 2
        (rw [hU] at h
         simp at h)
    · rintro ⟨n1, n2, n3, c4⟩
      exact congrArg Prod.snd (upload_branch_language fn ts ok store n1 n2 n3 c4)
  · constructor
    · intro h
      rcases upload_cases inp fn ts ok store with
          ⟨-, hU⟩ | ⟨-, -, hU⟩ | ⟨-, -, -, hU⟩ | ⟨-, -, -, -, hU⟩ | ⟨n1, n2, n3, c4, c5, hU⟩ |
          ⟨-, -, -, -, -, -, hU⟩ | ⟨-, -, -, -, -, -, -, hU⟩ | ⟨-, -, -, -, -, -, -, -, hU⟩ |
          ⟨-, -, -, -, -, -, -, -, -, hU⟩ | ⟨-, ae, -, hU⟩ | ⟨-, -, -, hU⟩ | ⟨-, -, -, hU⟩
      iterate 4
        (rw [hU] at h
         simp at h)
      · exact ⟨n1, n2, n3, c4, c5⟩
      iterate 4
        (rw [hU] at h
         simp at h)
      · cases ae <;>
          (rw [hU] at h
           simp [audioErrorMsg] at h)
      iterate 2
        (rw [hU] at h
         simp at h)
    · rintro ⟨n1, n2, n3, c4, c5⟩
      exact congrArg Prod.snd (upload_branch_environment fn ts ok store n1 n2 n3 c4 c5)
  · constructor
    · intro h
      rcases upload_cases inp fn ts ok store with
          ⟨-, hU⟩ | ⟨-, -, hU⟩ | ⟨-, -, -, hU⟩ | ⟨-, -, -, -, hU⟩ | ⟨-, -, -, -, -, hU⟩ |
          ⟨n1, n2, n3, c4, c5, c6, hU⟩ | ⟨-, -, -, -, -, -, -, hU⟩ | ⟨-, -, -, -, -, -, -, -, hU⟩ |
          ⟨-, -, -, -, -, -, -, -, -, hU⟩ | ⟨-, ae, -, hU⟩ | ⟨-, -, -, hU⟩ | ⟨-, -, -, hU⟩
      iterate 5
        (rw [hU] at h
         simp at h)
      · exact ⟨n1, n2, n3, c4, c5, c6⟩
      iterate 3
        (rw [hU] at h
         simp at h)
      · cases ae <;>
          (rw [hU] at h
           simp [audioErrorMsg] at h)
      iterate 2
        (rw [hU] at h
         simp at h)
    · rintro ⟨n1, n2, n3, c4, c5, c6⟩
      exact congrArg Prod.snd (upload_branch_intent fn ts ok store n1 n2 n3 c4 c5 c6)
  · constructor
    · intro h
      rcases upload_cases inp fn ts ok store with
          ⟨-, hU⟩ | ⟨-, -, hU⟩ | ⟨-, -, -, hU⟩ | ⟨-, -, -, -, hU⟩ | ⟨-, -, -, -, -, hU⟩ |
          ⟨-, -, -, -, -, -, hU⟩ | ⟨n1, n2, n3, c4, c5, c6, c7, hU⟩ | ⟨-, -, -, -, -, -, -, -, hU⟩ |
          ⟨-, -, -, -, -, -, -, -, -, hU⟩ | ⟨-, ae, -, hU⟩ | ⟨-, -, -, hU⟩ | ⟨-, -, -, hU⟩
      iterate 6
        (rw [hU] at h
         simp at h)
      · exact ⟨n1, n2, n3, c4, c5, c6, c7⟩
      iterate 2
        (rw [hU] at h
         simp at h)
      · cases ae <;>
          (rw [hU] at h
           simp [audioErrorMsg] at h)
      iterate 2
        (rw [hU] at h
         simp at h)
    · rintro ⟨n1, n2, n3, c4, c5, c6, c7⟩
      exact congrArg Prod.snd (upload_branch_object_color fn ts ok store n1 n2 n3 c4 c5 c6 c7)
  · constructor
    · intro h
      rcases upload_cases inp fn ts ok store with
          ⟨-, hU⟩ | ⟨-, -, hU⟩ | ⟨-, -, -, hU⟩ | ⟨-, -, -, -, hU⟩ | ⟨-, -, -, -, -, hU⟩ |
          ⟨-, -, -, -, -, -, hU⟩ | ⟨-, -, -, -, -, -, -, hU⟩ | ⟨n1, n2, n3, c4, c5, c6, c7, c8, hU⟩ |
          ⟨-, -, -, -, -, -, -, -, -, hU⟩ | ⟨-, ae, -, hU⟩ | ⟨-, -, -, hU⟩ | ⟨-, -, -, hU⟩
      iterate 7
        (rw [hU] at h
         simp at h)
      · exact ⟨n1, n2, n3, c4, c5, c6, c7, c8⟩
      · rw [hU] at h
        simp at h
      · cases ae <;>
          (rw [hU] at h
           simp [audioErrorMsg] at h)
      iterate 2
        (rw [hU] at h
         simp at h)
    · rintro ⟨n1, n2, n3, c4, c5, c6, c7, c8⟩
      exact congrArg Prod.snd (upload_branch_target_color fn ts ok store n1 n2 n3 c4 c5 c6 c7 c8)
  · constructor
    · intro h
      rcases upload_cases inp fn ts ok store with
          ⟨-, hU⟩ | ⟨-, -, hU⟩ | ⟨-, -, -, hU⟩ | ⟨-, -, -, -, hU⟩ | ⟨-, -, -, -, -, hU⟩ |
          ⟨-, -, -, -, -, -, hU⟩ | ⟨-, -, -, -, -, -, -, hU⟩ | ⟨-, -, -, -, -, -, -, -, hU⟩ |
          ⟨n1, n2, n3, c4, c5, c6, c7, c8, c9, hU⟩ | ⟨-, ae, -, hU⟩ | ⟨-, -, -, hU⟩ | ⟨-, -, -, hU⟩
      iterate 8
        (rw [hU] at h
         simp at h)
      · exact ⟨n1, n2, n3, c4, c5, c6, c7, c8, c9⟩
      · cases ae <;>
          (rw [hU] at h
           simp [audioErrorMsg] at h)
      iterate 2
        (rw [hU] at h
         simp at h)
    · rintro ⟨n1, n2, n3, c4, c5, c6, c7, c8, c9⟩
      exact congrArg Prod.snd (upload_branch_direction fn ts ok store n1 n2 n3 c4 c5 c6 c7 c8 c9)
  · intro st' resp h
    rcases upload_cases inp fn ts ok store with
        ⟨-, hU⟩ | ⟨-, -, hU⟩ | ⟨-, -, -, hU⟩ | ⟨-, -, -, -, hU⟩ | ⟨-, -, -, -, -, hU⟩ |
        ⟨-, -, -, -, -, -, hU⟩ | ⟨-, -, -, -, -, -, -, hU⟩ | ⟨-, -, -, -, -, -, -, -, hU⟩ |
        ⟨-, -, -, -, -, -, -, -, -, hU⟩ | ⟨-, ae, -, hU⟩ | ⟨-, -, -, hU⟩ | ⟨-, -, -, hU⟩
    iterate 11 exact absurd (h.symm.trans hU) (by simp)
    injection h.symm.trans hU with hst hresp
    exact ⟨uploadEntry inp fn ts, hst, by simp [uploadEntry]⟩

/-- Witness for C7's stored-lower-cased component at a concrete successful
upload. -/
theorem c7_witness :
    ∃ e, ([entryW] : Store) = [] ++ [e] ∧ e.language = pyLower inpW.language ∧
      e.environment = pyLower inpW.environment ∧ e.intent = pyLower inpW.intent ∧
      e.object_color = pyLower inpW.object_color ∧
      e.target_color = pyLower inpW.target_color ∧
      e.direction = pyLower inpW.direction :=
  (c7_enum_field_validation inpW (chars "w.webm") (chars "t0") true []).2.2.2.2.2.2.2.2
    [entryW] (chars "w.webm") (by decide)

/-- C8 (amended): CSV export fails with NotFound on an empty store;
otherwise it yields exactly one header row followed by one data row per
fetched entry — the fetch is capped at 10000 documents, so there are
min(n, 10000) data rows, not n (see `c8_csv_cap_counterexample`) — with
columns in the documented order and the rows built from the audio-free
projection of each entry. -/
theorem c8_csv_export (store : Store) :
    (download_csv store = .error ⟨404, "No data yet."⟩ ↔ store = []) ∧
    (store ≠ [] → download_csv store =
      .ok (csvHeaderRow :: (store.take 10000).map (fun e =>
        [ e.filename, e.speaker_id, e.text, e.language, e.intent, e.object_color,
          e.target_color, e.direction, e.environment, e.timestamp]))) ∧
    (∀ rows, download_csv store = .ok rows → rows.length = 1 + min store.length 10000) := by
  by_cases hs : store = []
  · subst hs
    refine ⟨by simp [download_csv], fun hne => absurd rfl hne, fun rows h => ?_⟩
    simp [download_csv] at h
  · have hne : (store.take 10000).map projectMeta ≠ [] := by
      simp [List.take_eq_nil_iff, hs]
    have hok : download_csv store =
        .ok (csvHeaderRow :: ((store.take 10000).map projectMeta).map metaCsvRow) := by
      simp [download_csv, hne, hs]
    refine ⟨?_, fun _ => ?_, fun rows h => ?_⟩
    · rw [hok]
      exact iff_of_false (by simp) hs
    · rw [hok]
      rw [List.map_map]
      rfl
    · rw [hok] at h
      have hr : rows = csvHeaderRow :: ((store.take 10000).map projectMeta).map metaCsvRow := by
        simpa using h.symm
      subst hr
      simp only [List.length_cons, List.length_map, List.length_take]
      omega

/-- Counterexample for C8 as stated: a store of 10001 entries exports only
10000 data rows (10001 rows with the header), because the fetch is capped
at 10000; the claim demands 1 + 10001 rows. -/
theorem c8_csv_cap_counterexample :
    (List.replicate 10001 e0 : Store).length = 10001 ∧
    download_csv (List.replicate 10001 e0) =
      .ok (csvHeaderRow :: List.replicate 10000 (metaCsvRow (projectMeta e0))) ∧
    (csvHeaderRow :: List.replicate 10000 (metaCsvRow (projectMeta e0))).length = 10001 ∧
    (10001 : Nat) ≠ 1 + 10001 := by
  have hmin : min (10000 : Nat) 10001 = 10000 := by norm_num
  refine ⟨by rw [List.length_replicate], ?_, ?_, by norm_num⟩
  · have htake : (List.replicate 10001 e0 : Store).take 10000 = List.replicate 10000 e0 := by
      rw [List.take_replicate, hmin]
    have hne2 : (List.replicate 10000 e0 : Store) ≠ [] := by
      intro hc
      have := congrArg List.length hc
      rw [List.length_replicate] at this
      exact absurd this (by norm_num)
    rw [download_csv, htake]
    rw [List.map_replicate, List.map_replicate]
    have hne3 : (List.replicate 10000 (projectMeta e0)) ≠ ([] : List EntryMeta) := by
      intro hc
      have := congrArg List.length hc
      rw [List.length_replicate] at this
      exact absurd this (by norm_num)
    rw [if_neg hne3]
  · rw [List.length_cons, List.length_replicate]

/-- Witness for C8 at a concrete one-entry store. -/
theorem c8_witness :
    download_csv [e0] = .ok (csvHeaderRow :: (([e0] : Store).take 10000).map (fun e =>
      [ e.filename, e.speaker_id, e.text, e.language, e.intent, e.object_color,
        e.target_color, e.direction, e.environment, e.timestamp])) ∧
    [ csvHeaderRow, metaCsvRow (projectMeta e0)].length = 1 + min ([e0] : Store).length 10000 :=
  ⟨(c8_csv_export [e0]).2.1 (by decide),
    (c8_csv_export [e0]).2.2 [ csvHeaderRow, metaCsvRow (projectMeta e0)] (by decide)⟩

theorem audioPath_cons (fn : List Char) :
    audioPath fn = 'a' :: 'u' :: 'd' :: 'i' :: 'o' :: '/' :: fn := rfl

theorem length_audioPath (fn : List Char) : (audioPath fn).length = 6 + fn.length := by
  rw [audioPath_cons]
  simp
  omega

theorem audioPath_inj {a b : List Char} (h : audioPath a = audioPath b) : a = b := by
  rw [audioPath_cons, audioPath_cons] at h
  simpa using h

theorem audioPath_beq_metadata (fn : List Char) :
    (audioPath fn == chars "metadata.csv") = false := by
  rw [beq_eq_false_iff_ne, audioPath_cons]
  intro h
  injection h with h1 _
  exact absurd h1 (by decide)

theorem metadata_beq_audioPath (fn : List Char) :
    (chars "metadata.csv" == audioPath fn) = false := by
  rw [beq_eq_false_iff_ne, audioPath_cons]
  intro h
  injection h with h1 _
  exact absurd h1 (by decide)

theorem zipAudioMembers_paths : ∀ {l : List Entry} {ms : List ZipMember},
    zipAudioMembers l = some ms →
    ms.map ZipMember.path =
      (l.filter (fun e => e.audio_b64.isSome)).map (fun e => audioPath e.filename) := by
  intro l
  induction l with
  | nil =>
    intro ms h
    obtain rfl : ms = [] := by simpa [zipAudioMembers] using h.symm
    simp
  | cons e rest ih =>
    intro ms h
    cases hb : e.audio_b64 with
    | none =>
      have hcons : zipAudioMembers (e :: rest) = zipAudioMembers rest := by
        simp [zipAudioMembers, hb]
      rw [hcons] at h
      rw [List.filter_cons_of_neg (by simp [hb])]
      exact ih h
    | some enc =>
      cases hd : pyB64Decode enc with
      | none =>
        have hcons : zipAudioMembers (e :: rest) = none := by
          simp [zipAudioMembers, hb, hd]
        rw [hcons] at h
        cases h
      | some bs =>
        cases hz : zipAudioMembers rest with
        | none =>
          have hcons : zipAudioMembers (e :: rest) = none := by
            simp [zipAudioMembers, hb, hd, hz]
          rw [hcons] at h
          cases h
        | some ms' =>
          have hcons : zipAudioMembers (e :: rest) =
              some (⟨audioPath e.filename, ZipData.bytes bs⟩ :: ms') := by
            simp [zipAudioMembers, hb, hd, hz]
          rw [hcons] at h
          injection h with h3
          subst h3
          rw [List.filter_cons_of_pos (by simp [hb])]
          simp [ih hz]

theorem zipAudioMembers_total : ∀ {l : List Entry},
    (∀ e ∈ l, ∀ enc, e.audio_b64 = some enc → (pyB64Decode enc).isSome = true) →
    ∃ ms, zipAudioMembers l = some ms := by
  intro l
  induction l with
  | nil => intro _; exact ⟨[], rfl⟩
  | cons e rest ih =>
    intro hdec
    obtain ⟨ms', hz⟩ := ih fun x hx => hdec x (List.mem_cons_of_mem e hx)
    cases hb : e.audio_b64 with
    | none => exact ⟨ms', by simp [zipAudioMembers, hb, hz]⟩
    | some enc =>
      have hs := hdec e (List.mem_cons_self e rest) enc hb
      cases hd : pyB64Decode enc with
      | none => rw [hd] at hs; cases hs
      | some bs =>
        exact ⟨⟨audioPath e.filename, .bytes bs⟩ :: ms', by
          simp [zipAudioMembers, hb, hd, hz]⟩

theorem countP_filename_one : ∀ {store : Store}, (store.map Entry.filename).Nodup →
    ∀ {e : Entry}, e ∈ store → e.audio_b64.isSome = true →
    (store.filter (fun x => x.audio_b64.isSome)).countP
      (fun x => x.filename == e.filename) = 1 := by
  intro store
  induction store with
  | nil => intro _ e he; cases he
  | cons x rest ih =>
    intro hnd e he hsome
    rw [List.map_cons, List.nodup_cons] at hnd
    obtain ⟨hx, hrest⟩ := hnd
    rcases List.mem_cons.mp he with rfl | hmem
    · rw [List.filter_cons_of_pos (by simp [hsome])]
      rw [List.countP_cons]
      have hzero : (rest.filter (fun x => x.audio_b64.isSome)).countP
          (fun y => y.filename == e.filename) = 0 := by
        rw [List.countP_eq_zero]
        intro y hy
        have hy' : y ∈ rest := List.mem_of_mem_filter hy
        have : y.filename ≠ e.filename := by
          intro hc
          exact hx (hc ▸ List.mem_map_of_mem Entry.filename hy')
        simp [this]
      rw [hzero]
      simp
    · have hne : x.filename ≠ e.filename := by
        intro hc
        exact hx (hc ▸ List.mem_map_of_mem Entry.filename hmem)
      cases hxb : x.audio_b64.isSome with
      | false =>
        rw [List.filter_cons_of_neg (by simp [hxb])]
        exact ih hrest hmem hsome
      | true =>
        rw [List.filter_cons_of_pos (by simp [hxb])]
        rw [List.countP_cons]
        rw [ih hrest hmem hsome]
        simp [hne]

theorem countP_filename_zero : ∀ {store : Store}, (store.map Entry.filename).Nodup →
    ∀ {e : Entry}, e ∈ store → e.audio_b64 = none →
    (store.filter (fun x => x.audio_b64.isSome)).countP
      (fun x => x.filename == e.filename) = 0 := by
  intro store
  induction store with
  | nil => intro _ e he; cases he
  | cons x rest ih =>
    intro hnd e he hnone
    rw [List.map_cons, List.nodup_cons] at hnd
    obtain ⟨hx, hrest⟩ := hnd
    rcases List.mem_cons.mp he with rfl | hmem
    · rw [List.filter_cons_of_neg (by simp [hnone])]
      rw [List.countP_eq_zero]
      intro y hy
      have hy' : y ∈ rest := List.mem_of_mem_filter hy
      have : y.filename ≠ e.filename := by
        intro hc
        exact hx (hc ▸ List.mem_map_of_mem Entry.filename hy')
      simp [this]
    · have hne : x.filename ≠ e.filename := by
        intro hc
        exact hx (hc ▸ List.mem_map_of_mem Entry.filename hmem)
      cases hxb : x.audio_b64.isSome with
      | false =>
        rw [List.filter_cons_of_neg (by simp [hxb])]
        exact ih hrest hmem hnone
      | true =>
        rw [List.filter_cons_of_pos (by simp [hxb])]
        rw [List.countP_cons]
        rw [ih hrest hmem hnone]
        simp [hne]

/-- C9 (amended): ZIP export fails with NotFound on an empty store;
otherwise — for a store within the 10000-document fetch cap, with the
distinct filenames that UUID generation guarantees and decodable stored
payloads — the archive holds exactly one metadata.csv member, exactly one
audio/<filename> member per entry that has an audio payload, no audio
member for an entry without one, and a metadata.csv with one data row per
entry (entries beyond the fetch cap are dropped entirely; see
`c9_zip_cap_counterexample`). -/
theorem c9_zip_bundle (store : Store)
    (hlen : store.length ≤ 10000)
    (hnd : (store.map Entry.filename).Nodup)
    (hdec : ∀ e ∈ store, ∀ enc, e.audio_b64 = some enc → (pyB64Decode enc).isSome = true) :
    (store = [] → download_all store = .error ⟨404, "No data yet."⟩) ∧
    (store ≠ [] → ∃ ms, download_all store = .ok ms ∧
      ms.countP (fun m => m.path == chars "metadata.csv") = 1 ∧
      (∀ e ∈ store, e.audio_b64.isSome = true →
        ms.countP (fun m => m.path == audioPath e.filename) = 1) ∧
      (∀ e ∈ store, e.audio_b64 = none →
        ms.countP (fun m => m.path == audioPath e.filename) = 0) ∧
      (∃ rows, (⟨chars "metadata.csv", ZipData.csvRows rows⟩ : ZipMember) ∈ ms ∧
        rows.length = 1 + store.length)) := by
  have htake : store.take 10000 = store := List.take_of_length_le hlen
  constructor
  · rintro rfl
    rfl
  · intro hne
    obtain ⟨ms0, hz⟩ := zipAudioMembers_total hdec
    have hpaths := zipAudioMembers_paths hz
    refine ⟨ms0 ++ [⟨chars "metadata.csv",
      .csvRows (csvHeaderRow :: store.map (fun e => metaCsvRow (projectMeta e)))⟩],
      ?_, ?_, ?_, ?_, ?_⟩
    · simp [download_all, htake, hz, hne]
    · rw [List.countP_append]
      have h0 : ms0.countP (fun m => m.path == chars "metadata.csv") = 0 := by
        rw [List.countP_eq_zero]
        intro m hm
        have hp : m.path ∈ ms0.map ZipMember.path := List.mem_map_of_mem _ hm
        rw [hpaths] at hp
        obtain ⟨x, -, hx⟩ := List.mem_map.mp hp
        rw [← hx, audioPath_beq_metadata]
        simp
      rw [h0]
      simp [List.countP_cons]
    · intro e he hsome
      rw [List.countP_append]
      have hm0 : List.countP (fun m => m.path == audioPath e.filename) [(⟨chars "metadata.csv",
          ZipData.csvRows (csvHeaderRow :: store.map (fun e => metaCsvRow (projectMeta e)))⟩ :
            ZipMember)] = 0 := by
        simp [List.countP_cons, metadata_beq_audioPath]
      have key : ms0.countP (fun m => m.path == audioPath e.filename) =
          (store.filter (fun x => x.audio_b64.isSome)).countP
            (fun x => x.filename == e.filename) := by
        have h1 : ms0.countP (fun m => m.path == audioPath e.filename) =
            (ms0.map ZipMember.path).countP (fun pth => pth == audioPath e.filename) := by
          rw [List.countP_map]
          rfl
        rw [h1, hpaths, List.countP_map]
        apply List.countP_congr
        intro x hx
        show (audioPath x.filename == audioPath e.filename) = true ↔
          (x.filename == e.filename) = true
        by_cases hxy : x.filename = e.filename
        · rw [hxy]
          simp
        · have hne2 : audioPath x.filename ≠ audioPath e.filename :=
            fun hc => hxy (audioPath_inj hc)
          simp [hxy, hne2]
      rw [hm0, key, countP_filename_one hnd he hsome]
    · intro e he hnone
      rw [List.countP_append]
      have hm0 : List.countP (fun m => m.path == audioPath e.filename) [(⟨chars "metadata.csv",
          ZipData.csvRows (csvHeaderRow :: store.map (fun e => metaCsvRow (projectMeta e)))⟩ :
            ZipMember)] = 0 := by
        simp [List.countP_cons, metadata_beq_audioPath]
      have key : ms0.countP (fun m => m.path == audioPath e.filename) =
          (store.filter (fun x => x.audio_b64.isSome)).countP
            (fun x => x.filename == e.filename) := by
        have h1 : ms0.countP (fun m => m.path == audioPath e.filename) =
            (ms0.map ZipMember.path).countP (fun pth => pth == audioPath e.filename) := by
          rw [List.countP_map]
          rfl
        rw [h1, hpaths, List.countP_map]
        apply List.countP_congr
        intro x hx
        show (audioPath x.filename == audioPath e.filename) = true ↔
          (x.filename == e.filename) = true
        by_cases hxy : x.filename = e.filename
        · rw [hxy]
          simp
        · have hne2 : audioPath x.filename ≠ audioPath e.filename :=
            fun hc => hxy (audioPath_inj hc)
          simp [hxy, hne2]
      rw [hm0, key, countP_filename_zero hnd he hnone]
    · refine ⟨csvHeaderRow :: store.map (fun e => metaCsvRow (projectMeta e)),
        List.mem_append_right ms0 (by simp), ?_⟩
      simp
      omega

/-- Witness for C9 (amended) at a two-entry store, one entry with audio
and one without. -/
theorem c9_witness :
    (([e0, eNoAudio] : Store) = [] → download_all [e0, eNoAudio] = .error ⟨404, "No data yet."⟩) ∧
    (([e0, eNoAudio] : Store) ≠ [] → ∃ ms, download_all [e0, eNoAudio] = .ok ms ∧
      ms.countP (fun m => m.path == chars "metadata.csv") = 1 ∧
      (∀ e ∈ ([e0, eNoAudio] : Store), e.audio_b64.isSome = true →
        ms.countP (fun m => m.path == audioPath e.filename) = 1) ∧
      (∀ e ∈ ([e0, eNoAudio] : Store), e.audio_b64 = none →
        ms.countP (fun m => m.path == audioPath e.filename) = 0) ∧
      (∃ rows, (⟨chars "metadata.csv", ZipData.csvRows rows⟩ : ZipMember) ∈ ms ∧
        rows.length = 1 + ([e0, eNoAudio] : Store).length)) :=
  c9_zip_bundle [e0, eNoAudio] (by decide) (by decide) (by decide)

/-- Counterexample for C9 as stated: a store of 10001 entries with
pairwise distinct filenames, every one holding an audio payload; the entry
`mkE 10000` lies beyond the 10000-document fetch cap, so the produced
archive contains no `audio/<its filename>` member at all, although the
claim demands exactly one per entry with audio. -/
theorem c9_zip_cap_counterexample :
    (store10001.map Entry.filename).Nodup ∧
    mkE 10000 ∈ store10001 ∧ (mkE 10000).audio_b64.isSome = true ∧
    ∃ ms, download_all store10001 = .ok ms ∧
      ms.countP (fun m => m.path == audioPath (mkE 10000).filename) = 0 := by
  have hinj : Function.Injective (Entry.filename ∘ mkE) := by
    intro a b h
    have h2 := congrArg List.length h
    simp [mkE] at h2
    exact h2
  refine ⟨?_, List.mem_map_of_mem mkE (List.mem_range.mpr (by norm_num)), rfl, ?_⟩
  · unfold store10001
    rw [List.map_map]
    exact (List.nodup_range 10001).map hinj
  · have hentries : store10001.take 10000 = (List.range 10000).map mkE := by
      unfold store10001
      rw [← List.map_take, List.take_range]
      norm_num
    obtain ⟨ms0, hz⟩ := @zipAudioMembers_total ((List.range 10000).map mkE) (by
      intro e he enc hb
      obtain ⟨i, -, rfl⟩ := List.mem_map.mp he
      have hb2 : some ([] : List Char) = some enc := hb
      obtain rfl := Option.some.inj hb2
      rfl)
    have hds : download_all store10001 = .ok (ms0 ++ [⟨chars "metadata.csv",
        .csvRows (csvHeaderRow ::
          ((List.range 10000).map mkE).map (fun e => metaCsvRow (projectMeta e)))⟩]) := by
      have hne : ((List.range 10000).map mkE) ≠ [] := by
        simp [List.range_eq_nil]
      simp [download_all, hentries, hz, hne]
    refine ⟨_, hds, ?_⟩
    rw [List.countP_eq_zero]
    intro m hm
    rcases List.mem_append.mp hm with hm0 | hmeta
    · have hp : m.path ∈ ms0.map ZipMember.path := List.mem_map_of_mem _ hm0
      rw [zipAudioMembers_paths hz] at hp
      obtain ⟨x, hxmem, hx⟩ := List.mem_map.mp hp
      have hxm : x ∈ (List.range 10000).map mkE := List.mem_of_mem_filter hxmem
      obtain ⟨i, hi, rfl⟩ := List.mem_map.mp hxm
      have hilt : i < 10000 := List.mem_range.mp hi
      rw [← hx]
      simp only [beq_iff_eq]
      intro hc
      have h2 : List.replicate (i + 1) 'a' = List.replicate (10000 + 1) 'a' :=
        audioPath_inj hc
      have h3 := congrArg List.length h2
      rw [List.length_replicate, List.length_replicate] at h3
      omega
    · have hmeq : m = ⟨chars "metadata.csv",
          .csvRows (csvHeaderRow ::
            ((List.range 10000).map mkE).map (fun e => metaCsvRow (projectMeta e)))⟩ :=
        List.mem_singleton.mp hmeta
      rw [hmeq]
      show ¬ ((chars "metadata.csv" == audioPath (mkE 10000).filename) = true)
      rw [metadata_beq_audioPath]
      simp

/-- C10 (amended): `stats` returns the total entry count, the
per-language and per-environment counts, and an `intents` sub-object with
one key for each named intent — that is, every member of the valid intent
set except the empty-string unset value, which the handler's loop omits
(see `c10_unset_intent_key_missing`). -/
theorem c10_stats_shape (store : Store) :
    (stats store).total = store.length ∧
    (stats store).bengali = (store.filter (fun e => e.language == chars "bengali")).length ∧
    (stats store).english = (store.filter (fun e => e.language == chars "english")).length ∧
    (stats store).mixed = (store.filter (fun e => e.language == chars "mixed")).length ∧
    (stats store).noisy = (store.filter (fun e => e.environment == chars "noisy")).length ∧
    (stats store).quiet = (store.filter (fun e => e.environment == chars "quiet")).length ∧
    (stats store).intents.map Prod.fst = VALID_INTENTS.filter (fun i => !(i == chars "")) ∧
    (stats store).intents = statsIntentKeys.map
      (fun i => (i, (store.filter (fun e => e.intent == i)).length)) := by
  refine ⟨rfl, rfl, rfl, rfl, rfl, rfl, ?_, rfl⟩
  have hmap : (stats store).intents.map Prod.fst = statsIntentKeys := by
    simp only [stats, List.map_map]
    exact List.map_id statsIntentKeys
  rw [hmap]
  decide

/-- Counterexample for C10 as stated: the empty string belongs to the
valid intent set, yet the stats object's intents sub-object has no
empty-string key — the handler iterates only the nine named intents. -/
theorem c10_unset_intent_key_missing :
    chars "" ∈ VALID_INTENTS ∧
    ¬ chars "" ∈ (stats []).intents.map Prod.fst := by decide

end VoiceDataset

